import Mathlib

/-!
Verification of the state/action model of `src/main.js` from the
another-approach-to-state repository.

The application state is a record holding an `rgb` triple of numeric
strings and a list `saves` of previously saved triples.  Actions are pure
functions from state to state: three field setters (`setR`, `setG`,
`setB`) built with Ramda lenses, and `save`, which appends the current
`rgb` to `saves` and otherwise resets the state to `initialState`.  The
orchestrator left-folds the stream of actions over `initialState`
(`actionProxy$.fold((state, action) => action(state), initialState)`).

Strings are kept as strings, exactly as in the JavaScript source: the
setters never parse, clamp or validate their argument.
-/

/-- The `rgb` record of the application state: three numeric-string
fields, mirroring `{r: '0', g: '0', b: '0'}` in `main.js`. -/
structure RGB where
  r : String
  g : String
  b : String
deriving DecidableEq, Repr

/-- The application state of `main.js`: an `rgb` triple and an ordered
list of saved triples. -/
structure AppState where
  rgb : RGB
  saves : List RGB
deriving DecidableEq, Repr

/-- The constant `initialState` of `main.js`: rgb all `"0"`, no saves. -/
def initialState : AppState :=
  { rgb := { r := "0", g := "0", b := "0" }, saves := [] }

/-- Embeds `getR(state)`, reading through `lensR = R.lensPath(['rgb', 'r'])`. -/
def getR (state : AppState) : String :=
  state.rgb.r

/-- Embeds `getG(state)`. -/
def getG (state : AppState) : String :=
  state.rgb.g

/-- Embeds `getB(state)`. -/
def getB (state : AppState) : String :=
  state.rgb.b

/-- Embeds `canSave(state)`: true unless the current color is exactly
cyan, i.e. `!(getR(state) === "0" && getG(state) === "255" && getB(state) === "255")`. -/
def canSave (state : AppState) : Bool :=
  !(getR state == "0" && getG state == "255" && getB state == "255")

/-- Embeds `setR(value)`: the action `state => R.set(lensR, value, state)`,
replacing the `r` field and copying everything else. -/
def setR (value : String) : AppState → AppState :=
  fun state => { state with rgb := { state.rgb with r := value } }

/-- Embeds `setG(value)`. -/
def setG (value : String) : AppState → AppState :=
  fun state => { state with rgb := { state.rgb with g := value } }

/-- Embeds `setB(value)`. -/
def setB (value : String) : AppState → AppState :=
  fun state => { state with rgb := { state.rgb with b := value } }

/-- Embeds `save()`: the action that reads the current `rgb` and `saves`
and returns `R.set(lensSaves, R.append(newRGB, saves), initialState)` —
the initial state with `saves` replaced by `saves ++ [newRGB]`. -/
def save (_u : Unit) : AppState → AppState :=
  fun state =>
    let newRGB := state.rgb
    let saves := state.saves
    { initialState with saves := saves ++ [newRGB] }

/-- The four action variants the application can emit: the three slider
setters (carrying the raw string value from the input event) and the save
button's action. -/
inductive UIAction where
  | setRA (value : String)
  | setGA (value : String)
  | setBA (value : String)
  | saveA
deriving DecidableEq, Repr

/-- Denotation of an action as the state transformer `main.js` builds for
it: `setR`/`setG`/`setB` applied to the carried value, or `save ()`. -/
def UIAction.run : UIAction → AppState → AppState
  | .setRA v => setR v
  | .setGA v => setG v
  | .setBA v => setB v
  | .saveA => save ()

/-- Embeds the state fold of `main` in `main.js`:
`actionProxy$.fold((state, action) => action(state), initialState)`,
generalized to an arbitrary starting state.  Left-folds the ordered
action sequence, applying each action to the accumulated state. -/
def runActions (actions : List UIAction) (start : AppState) : AppState :=
  actions.foldl (fun state action => action.run state) start

/-- The `disabled` flag `ActionButton` renders for the save button:
`disabled: !props.canAct` with `canAct: canSave(state)` supplied by `main`. -/
def saveButtonDisabled (state : AppState) : Bool :=
  !(canSave state)

/-- Modelled from the spec: the browser-side behavioral guarantee that a
disabled trigger emits no action ("must not emit an action while
disabled").  The click-suppression of a disabled DOM button is not part
of `src/`; per the spec, attempting a save emits the `save ()` action
only when the rendered button is enabled, and otherwise nothing, leaving
the state untouched. -/
def attemptSave (state : AppState) : AppState :=
  if saveButtonDisabled state then state else save () state

/-- Spec-side helper: the numeric value of a string of decimal digits,
or `none` when the string is empty or holds a non-digit character. -/
def decimalValue (value : String) : Option Nat :=
  match value.data with
  | [] => none
  | cs => cs.foldl (fun acc c =>
      match acc with
      | some n => if c.isDigit then some (n * 10 + (c.toNat - 48)) else none
      | none => none) (some 0)

/-- Spec-side predicate: the string is the decimal representation of an
integer in the range `[0, 255]` (the invariant the spec states for the
`rgb` fields and the range the sliders enforce via `min`/`max`). -/
def valueInRange (value : String) : Bool :=
  match decimalValue value with
  | some n => n ≤ 255
  | none => false

/-- Spec-side predicate on a whole `rgb` record: every field is
representable as an integer in `[0, 255]`. -/
def rgbInRange (c : RGB) : Bool :=
  valueInRange c.r && valueInRange c.g && valueInRange c.b

/-- Spec-side predicate on actions: every setter payload is a decimal
string of an integer in `[0, 255]` (what the range inputs with `min: 0`,
`max: 255` supply); `save` carries no payload. -/
def wellFormedAction : UIAction → Bool
  | .setRA v => valueInRange v
  | .setGA v => valueInRange v
  | .setBA v => valueInRange v
  | .saveA => true

/-- C1: Replay determinism.  Left-folding one and the same ordered action
sequence over one and the same starting state can only produce one final
state: any two runs of the same sequence agree. -/
theorem replay_deterministic (actions : List UIAction) (start r₁ r₂ : AppState)
    (h₁ : r₁ = runActions actions start) (h₂ : r₂ = runActions actions start) :
    r₁ = r₂ := by
  rw [h₁, h₂]

/-- Witness for C1 at a concrete action sequence and the initial state. -/
theorem replay_deterministic_witness :
    runActions [UIAction.setRA "200", UIAction.saveA] initialState
      = runActions [UIAction.setRA "200", UIAction.saveA] initialState :=
  replay_deterministic [UIAction.setRA "200", UIAction.saveA] initialState
    (runActions [UIAction.setRA "200", UIAction.saveA] initialState)
    (runActions [UIAction.setRA "200", UIAction.saveA] initialState) rfl rfl

/-- C2: `save ()` appends the current rgb to `saves`, resets `rgb` to all
`"0"`, and in fact resets the whole state to `initialState` except for
the updated `saves` list. -/
theorem save_appends_and_resets (s : AppState) :
    (save () s).saves = s.saves ++ [s.rgb]
      ∧ (save () s).rgb = { r := "0", g := "0", b := "0" }
      ∧ save () s = { initialState with saves := s.saves ++ [s.rgb] } :=
  ⟨rfl, rfl, rfl⟩

/-- C7: the setter `setR "128"` is idempotent: applying it twice yields
the same state as applying it once. -/
theorem setR_idempotent (s : AppState) :
    setR "128" (setR "128" s) = setR "128" s :=
  rfl

/-- C8: end-to-end scenario: from the initial state, `setR "200"`, then
`setG "100"`, then `save ()` produces exactly the state with rgb reset to
all `"0"` and a single saved triple `("200", "100", "0")`. -/
theorem end_to_end_scenario :
    runActions [UIAction.setRA "200", UIAction.setGA "100", UIAction.saveA] initialState
      = { rgb := { r := "0", g := "0", b := "0" },
          saves := [{ r := "200", g := "100", b := "0" }] } :=
  rfl

/-- C3: each slider setter changes exactly the one targeted rgb field and
leaves the two other rgb fields and the `saves` list unchanged. -/
theorem setters_frame (s : AppState) (v : String) :
    ((setR v s).rgb.r = v ∧ (setR v s).rgb.g = s.rgb.g
      ∧ (setR v s).rgb.b = s.rgb.b ∧ (setR v s).saves = s.saves)
  ∧ ((setG v s).rgb.g = v ∧ (setG v s).rgb.r = s.rgb.r
      ∧ (setG v s).rgb.b = s.rgb.b ∧ (setG v s).saves = s.saves)
  ∧ ((setB v s).rgb.b = v ∧ (setB v s).rgb.r = s.rgb.r
      ∧ (setB v s).rgb.g = s.rgb.g ∧ (setB v s).saves = s.saves) :=
  ⟨⟨rfl, rfl, rfl, rfl⟩, ⟨rfl, rfl, rfl, rfl⟩, ⟨rfl, rfl, rfl, rfl⟩⟩

/-- C4: `canSave` returns false exactly when the rgb triple is cyan
`("0", "255", "255")`, and in particular returns true at the boundary
values `("255", "0", "0")` and `("0", "255", "254")`. -/
theorem canSave_false_iff_cyan (s : AppState) :
    (canSave s = false ↔ s.rgb = { r := "0", g := "255", b := "255" })
      ∧ canSave { rgb := { r := "255", g := "0", b := "0" }, saves := [] } = true
      ∧ canSave { rgb := { r := "0", g := "255", b := "254" }, saves := [] } = true := by
  obtain ⟨⟨r, g, b⟩, sv⟩ := s
  refine ⟨?_, by decide, by decide⟩
  simp [canSave, getR, getG, getB, RGB.mk.injEq, and_assoc]

/-- C5: from a state whose rgb is cyan the save button is disabled, so an
attempted save emits nothing: the state — and with it the `saves` list —
is unchanged. -/
theorem disabled_save_no_effect (s : AppState)
    (h : s.rgb = { r := "0", g := "255", b := "255" }) :
    attemptSave s = s ∧ (attemptSave s).saves = s.saves := by
  have hd : saveButtonDisabled s = true := by
    simp [saveButtonDisabled, canSave, getR, getG, getB, h]
  constructor <;> simp [attemptSave, hd]

/-- Witness for C5 at the concrete cyan state with no saves. -/
theorem disabled_save_no_effect_witness :
    attemptSave { rgb := { r := "0", g := "255", b := "255" }, saves := [] }
        = { rgb := { r := "0", g := "255", b := "255" }, saves := [] }
      ∧ (attemptSave { rgb := { r := "0", g := "255", b := "255" }, saves := [] }).saves
        = ([] : List RGB) :=
  disabled_save_no_effect { rgb := { r := "0", g := "255", b := "255" }, saves := [] } rfl

/-- C9: the reducer layer stores setter payloads verbatim — no clamping,
coercion or validation — for every string, numeric or not. -/
theorem setters_store_verbatim (s : AppState) (v : String) :
    (setR v s).rgb.r = v ∧ (setG v s).rgb.g = v ∧ (setB v s).rgb.b = v :=
  ⟨rfl, rfl, rfl⟩

/-- C10: setters that target distinct rgb fields commute, for every pair
of distinct fields and all payloads. -/
theorem distinct_setters_commute (s : AppState) (v w : String) :
    setG w (setR v s) = setR v (setG w s)
  ∧ setB w (setR v s) = setR v (setB w s)
  ∧ setB w (setG v s) = setG v (setB w s) :=
  ⟨rfl, rfl, rfl⟩

/-- Folding a concatenation of action lists runs the first list and then
the second from the intermediate state. -/
theorem runActions_append (as bs : List UIAction) (s : AppState) :
    runActions (as ++ bs) s = runActions bs (runActions as s) := by
  simp [runActions, List.foldl_append]

/-- Running any action sequence only ever appends to `saves`: the
existing entries survive untouched, in order, as a prefix. -/
theorem runActions_saves_extends (actions : List UIAction) (s : AppState) :
    ∃ appended, (runActions actions s).saves = s.saves ++ appended := by
  induction actions generalizing s with
  | nil => exact ⟨[], by simp [runActions]⟩
  | cons a as ih =>
    have hstep : ∃ t, (UIAction.run a s).saves = s.saves ++ t := by
      cases a with
      | setRA v => exact ⟨[], by simp [UIAction.run, setR]⟩
      | setGA v => exact ⟨[], by simp [UIAction.run, setG]⟩
      | setBA v => exact ⟨[], by simp [UIAction.run, setB]⟩
      | saveA => exact ⟨[s.rgb], rfl⟩
    obtain ⟨t, ht⟩ := hstep
    obtain ⟨u, hu⟩ := ih (UIAction.run a s)
    exact ⟨t ++ u, by simp [runActions] at hu ⊢; simp [hu, ht]⟩

/-- Well-formed actions preserve the in-range invariant of the rgb
fields. -/
theorem run_preserves_rgbInRange (actions : List UIAction) (s : AppState)
    (hs : rgbInRange s.rgb = true) (hw : ∀ a ∈ actions, wellFormedAction a = true) :
    rgbInRange (runActions actions s).rgb = true := by
  induction actions generalizing s with
  | nil => exact hs
  | cons a as ih =>
    have ha : wellFormedAction a = true := hw a (List.mem_cons_self a as)
    have has : ∀ b ∈ as, wellFormedAction b = true :=
      fun b hb => hw b (List.mem_cons_of_mem a hb)
    refine ih (UIAction.run a s) ?_ has
    obtain ⟨⟨r, g, b⟩, sv⟩ := s
    simp [rgbInRange, Bool.and_eq_true] at hs
    cases a with
    | setRA v =>
      have ha' : valueInRange v = true := ha
      simp [UIAction.run, setR, rgbInRange, Bool.and_eq_true, ha', hs.1.2, hs.2]
    | setGA v =>
      have ha' : valueInRange v = true := ha
      simp [UIAction.run, setG, rgbInRange, Bool.and_eq_true, ha', hs.1.1, hs.2]
    | setBA v =>
      have ha' : valueInRange v = true := ha
      simp [UIAction.run, setB, rgbInRange, Bool.and_eq_true, ha', hs.1.1, hs.1.2]
    | saveA =>
      show rgbInRange { r := "0", g := "0", b := "0" } = true
      decide

/-- C6 fails as stated: the setters store arbitrary strings verbatim, so
the reachable state after `setR "999"` has an rgb field that is not
representable as an integer in `[0, 255]`. -/
theorem rgb_invariant_counterexample :
    ¬ (∀ actions : List UIAction,
        rgbInRange (runActions actions initialState).rgb = true) := by
  intro h
  exact absurd (h [UIAction.setRA "999"]) (by decide)

/-- C6 (amended): along any sequence of well-formed actions — setter
payloads are decimal strings of integers in `[0, 255]`, as the range
inputs supply — every state reachable from the initial state has all
three rgb fields representable as integers in `[0, 255]`, and later
actions only ever append to `saves`, never modifying the snapshots
already stored. -/
theorem reachable_state_invariant (actions : List UIAction)
    (hw : ∀ a ∈ actions, wellFormedAction a = true) :
    rgbInRange (runActions actions initialState).rgb = true
      ∧ ∀ later : List UIAction, ∃ appended,
          (runActions (actions ++ later) initialState).saves
            = (runActions actions initialState).saves ++ appended := by
  constructor
  · exact run_preserves_rgbInRange actions initialState (by decide) hw
  · intro later
    obtain ⟨appended, happ⟩ :=
      runActions_saves_extends later (runActions actions initialState)
    exact ⟨appended, by simp [runActions_append, happ]⟩

/-- Witness for the amended C6 at a concrete well-formed action list. -/
theorem reachable_state_invariant_witness :
    rgbInRange (runActions [UIAction.setRA "128", UIAction.saveA] initialState).rgb
      = true :=
  (reachable_state_invariant [UIAction.setRA "128", UIAction.saveA] (by decide)).1
